import Mathlib

/-!
# Verification of the netboot ProxyDHCP core

Shallow embedding of the three source files of the repository
(`server/dhcp.go`, `server/tftp.go`, `dhcp4/conn.go`) together with
models of the small pieces of supporting code that are referenced but
not present (the `dhcp4` option accessors and codec, the `constants`
package, and the Go standard-library helpers `net.ParseMAC`,
`strconv.Atoi`, `net.IP` classification).  Bytes are `Nat`s, byte
strings are `List Nat`, Go strings are Lean `String`s, IPv4 addresses
are 4-byte `List Nat`s, and fallible Go functions return `Except`.
-/

set_option autoImplicit false

/-! ## Small string helpers (Go formatting primitives) -/

/-- Lowercase hexadecimal digit characters, used by the model of
`net.HardwareAddr.String`. -/
def hexDigitChar (n : Nat) : Char :=
  "0123456789abcdef".data.getD n '0'

/-- Two lowercase hex digits for one byte, as Go `fmt` produces for a
hardware-address byte. -/
def byteHexStr (b : Nat) : String :=
  String.mk [hexDigitChar (b / 16 % 16), hexDigitChar (b % 16)]

/-- Model of `net.HardwareAddr.String`: each byte as two lowercase hex
digits, joined with colons. -/
def hwAddrString (bytes : List Nat) : String :=
  String.intercalate ":" (bytes.map byteHexStr)

/-- The single-quote character, used when rendering Go format strings
such as `unsupported client firmware type '%d'`. -/
def sqc : String := String.singleton (Char.ofNat 39)

/-- The bytes of an ASCII string, for comparing option values the way
Go compares `string(optionBytes)` with a literal. -/
def strBytes (s : String) : List Nat :=
  s.data.map Char.toNat

/-- Model of Go `%q` formatting for the printable ASCII strings this
system handles: the string surrounded by double quotes. -/
def quoted (s : String) : String :=
  "\"" ++ s ++ "\""

/-! ## dhcp4 packet model

The packet structure itself (`dhcp4/packet.go`) is not under `src/`;
its shape is modelled from the spec (§3 Packet, §6 wire format): message
type, transaction id, broadcast flag, the four IPv4 addresses, hardware
address, server host-name and boot-file name strings, and an options
collection mapping numeric codes to raw byte values.  A Go map with
distinct keys is modelled as an association list with first-wins lookup.
An absent address (`nil net.IP`) is the empty list. -/

abbrev DHCPOptions : Type := List (Nat × List Nat)

/-- Lookup of an option code, `pkt.Options[code]` in Go (`nil` when the
key is absent). -/
def getOpt (o : DHCPOptions) (c : Nat) : Option (List Nat) :=
  (o.find? (fun p => p.1 == c)).map (·.2)

structure Packet where
  type : Nat
  transactionID : List Nat
  broadcast : Bool
  hardwareAddr : List Nat
  clientAddr : List Nat
  yourAddr : List Nat
  serverAddr : List Nat
  relayAddr : List Nat
  bootServerName : String
  bootFilename : String
  options : DHCPOptions
deriving DecidableEq

/-- DHCP message-type and option-code constants used by the sources
(values are the standard DHCP codes; the defining `dhcp4` file is not
under `src/`). -/
def msgDiscover : Nat := 1

def msgOffer : Nat := 2

def optVendorSpecific : Nat := 43

def optServerIdentifier : Nat := 54

def optVendorIdentifier : Nat := 60

def optUserClass : Nat := 77

def optClientSystem : Nat := 93

def optUidGuidClientIdentifier : Nat := 97

/-- Modelled from the spec: the typed option accessor `Options.Uint16`
(`dhcp4` option code, not under `src/`).  Per §9 the options collection
carries typed accessors layered over raw bytes; a 16-bit accessor
requires the option to be present with exactly two bytes, read
big-endian, and errors otherwise ("malformed encoding → error", §4.4). -/
def optUint16 (o : DHCPOptions) (c : Nat) : Except String Nat :=
  match getOpt o c with
  | none => .error "option not present"
  | some bs =>
    match bs with
    | [hi, lo] => .ok (hi * 256 + lo)
    | _ => .error "option is the wrong size"

/-- Modelled from the spec: the option serializer (`Options.Marshal`,
part of the Packet Codec's `Encode`, §4.1, not under `src/`): each
option as code, length, value TLV (failing if a value exceeds 255
bytes), then the terminator code 255. -/
def optionsMarshal : List (Nat × List Nat) → Except String (List Nat)
  | [] => .ok [255]
  | (c, v) :: rest =>
    if v.length > 255 then .error "option value too long"
    else
      match optionsMarshal rest with
      | .error e => .error e
      | .ok bs => .ok (c :: v.length :: (v ++ bs))

/-! ## constants package (not under src/)

Modelled from the spec (§3): `FirmwareType` is an enumeration over
{x86-BIOS-PXE, EFI32, EFI64, EFI-Byte-Code, x86-iPXE,
Pixiecore-iPXE-second-stage, EFI-ARM64} and `Architecture` over
{32-bit, 64-bit, ARM64}.  Both are integer enumerations in the code
(they are rendered with `%d` into boot filenames); the spec pins
x86-BIOS-PXE to type code 0 (§8 `buildOffer` determinism), the other
values are consecutive and only their distinctness matters here. -/

def firmwareX86PC : Nat := 0

def firmwareEFI32 : Nat := 1

def firmwareEFI64 : Nat := 2

def firmwareEFIBC : Nat := 3

def firmwareX86Ipxe : Nat := 4

def firmwarePixiecoreIpxe : Nat := 5

def firmwareEfiArm64 : Nat := 6

def archIA32 : Nat := 0

def archX64 : Nat := 1

def archArm64 : Nat := 2

/-- `types.Machine` (§3 Data Model): hardware address plus architecture. -/
structure Machine where
  mac : List Nat
  arch : Nat
deriving DecidableEq

/-! ## server/dhcp.go: validation and classification -/

/-- `hasAnyPrefix` from `server/dhcp.go`. -/
def hasAnyPfx (s : String) (ps : List String) : Bool :=
  ps.any (fun p => p.data.isPrefixOf s.data)

/-- The five Raspberry-Pi vendor MAC prefixes from `validateDHCP`. -/
def rpiPrefixes : List String :=
  ["28:cd:c1:", "b8:27:eb:", "d8:3a:dd:", "dc:a6:32:", "e4:5f:01:"]

/-- Rendering of the Go error `unsupported client firmware type '%d'`. -/
def unsupportedFwMsg (n : Nat) : String :=
  "unsupported client firmware type " ++ sqc ++ Nat.repr n ++ sqc

def msgHTTPx64 : String :=
  "unsupported client firmware type (probably http4 x64 efi boot)"

def msgHTTPArm64 : String :=
  "unsupported client firmware type (probably http4 arm64 efi boot)"

def msgGUIDLeading : String :=
  "malformed client GUID (option 97), leading byte must be zero"

def msgGUIDSize : String :=
  "malformed client GUID (option 97), wrong size"

/-- `isBootDHCP` from `server/dhcp.go`: only Discover packets carrying
option 93 proceed.  (The Go message renders the message type through
its `String` method, which is not under `src/`; the model renders the
numeric code — no claim inspects this message.) -/
def isBootDHCP (pkt : Packet) : Except String Unit :=
  if pkt.type ≠ msgDiscover then
    .error ("packet is " ++ Nat.repr pkt.type ++ ", not " ++ Nat.repr msgDiscover)
  else if getOpt pkt.options optClientSystem = none then
    .error "not a PXE boot request (missing option 93)"
  else .ok ()

/-- `validateDHCP` from `server/dhcp.go`, line for line: parse option 93
as a 16-bit code; reject RPI-prefixed MACs sending code 0; map the code
through the fixed architecture switch; refine the firmware type from the
user-class option (option 77, read through the modelled string
accessor: present ⇒ its raw bytes as a string); validate the client
GUID (option 97); return the machine and firmware type. -/
def validateDHCP (pkt : Packet) : Except String (Machine × Nat) :=
  match optUint16 pkt.options optClientSystem with
  | .error e => .error ("malformed DHCP option 93 (required for PXE): " ++ e)
  | .ok fwt =>
    if hasAnyPfx (hwAddrString pkt.hardwareAddr) rpiPrefixes = true ∧ fwt = 0 then
      .error (unsupportedFwMsg fwt)
    else
      let tbl : Except String (Nat × Nat) :=
        if fwt = 0 then .ok (archIA32, firmwareX86PC)
        else if fwt = 6 then .ok (archIA32, firmwareEFI32)
        else if fwt = 7 then .ok (archX64, firmwareEFI64)
        else if fwt = 9 then .ok (archX64, firmwareEFIBC)
        else if fwt = 11 then .ok (archArm64, firmwareEfiArm64)
        else if fwt = 16 then .error msgHTTPx64
        else if fwt = 19 then .error msgHTTPArm64
        else .error (unsupportedFwMsg fwt)
      match tbl with
      | .error e => .error e
      | .ok (arch, fw0) =>
        let fw1 : Nat :=
          match getOpt pkt.options optUserClass with
          | some uc =>
            let fwi := if uc = strBytes "iPXE" ∧ fw0 = firmwareX86PC then firmwareX86Ipxe else fw0
            if uc = strBytes "pixiecore" then firmwarePixiecoreIpxe else fwi
          | none => fw0
        let guid := (getOpt pkt.options optUidGuidClientIdentifier).getD []
        if guid.length = 0 then
          .ok ({ mac := pkt.hardwareAddr, arch := arch }, fw1)
        else if guid.length = 17 then
          if guid.headD 0 ≠ 0 then .error msgGUIDLeading
          else .ok ({ mac := pkt.hardwareAddr, arch := arch }, fw1)
        else .error msgGUIDSize

/-- Statement-side rendering of the fixed architecture table of
`validateDHCP` (spec §4.4): code ↦ (Architecture, FirmwareType) for the
five supported codes, `none` elsewhere. -/
def archTable (fwt : Nat) : Option (Nat × Nat) :=
  if fwt = 0 then some (archIA32, firmwareX86PC)
  else if fwt = 6 then some (archIA32, firmwareEFI32)
  else if fwt = 7 then some (archX64, firmwareEFI64)
  else if fwt = 9 then some (archX64, firmwareEFIBC)
  else if fwt = 11 then some (archArm64, firmwareEfiArm64)
  else none

/-- The GUID-acceptance predicate of `validateDHCP`: absent (length 0)
or 17 bytes with leading byte zero. -/
def guidOk (pkt : Packet) : Prop :=
  let g := (getOpt pkt.options optUidGuidClientIdentifier).getD []
  g.length = 0 ∨ (g.length = 17 ∧ g.headD 0 = 0)

instance (pkt : Packet) : Decidable (guidOk pkt) := by
  unfold guidOk
  infer_instance

/-! ## Interface resolver (`interfaceIP` in server/dhcp.go)

The Go stdlib address classification (`net.IP.To4`,
`IsGlobalUnicast`, `IsLinkLocalUnicast`, `IsLoopback`) is modelled for
the IPv4 ranges named by the spec (§4.3).  An interface address is
`none` for a non-`*net.IPNet` address (skipped by the type assertion)
and `some ip` for an `IPNet` with the given IP bytes. -/

/-- Model of `net.IP.To4`: a 4-byte address as is; a 16-byte
IPv4-mapped IPv6 address reduced to its last 4 bytes; anything else
is not IPv4. -/
def to4 (ip : List Nat) : Option (List Nat) :=
  if ip.length = 4 then some ip
  else if ip.length = 16 ∧ ip.take 12 = [0,0,0,0,0,0,0,0,0,0,255,255] then
    some (ip.drop 12)
  else none

/-- Model of `net.IP.IsLoopback` on a 4-byte address: 127.0.0.0/8. -/
def isLoopbackIP (ip : List Nat) : Bool :=
  ip.headD 0 == 127

/-- Model of `net.IP.IsLinkLocalUnicast` on a 4-byte address:
169.254.0.0/16. -/
def isLinkLocalUnicastIP (ip : List Nat) : Bool :=
  ip.headD 0 == 169 && (ip.drop 1).headD 0 == 254

/-- Model of `net.IP.IsMulticast` on a 4-byte address: 224.0.0.0/4. -/
def isMulticastIP (ip : List Nat) : Bool :=
  ip.headD 0 / 16 == 14

/-- Model of `net.IP.IsGlobalUnicast` on a 4-byte address: everything
except broadcast, unspecified, loopback, multicast and link-local
unicast (RFC 1918 ranges included, as the source comments note). -/
def isGlobalUnicastIP (ip : List Nat) : Bool :=
  !(ip == [255,255,255,255]) && !(ip == [0,0,0,0]) &&
  !isLoopbackIP ip && !isMulticastIP ip && !isLinkLocalUnicastIP ip

/-- One configured interface address: `none` models an address that is
not a `*net.IPNet` (skipped by the type assertion in `interfaceIP`),
`some ip` models an `IPNet` whose IP field holds the given bytes. -/
abbrev IntfAddr : Type := Option (List Nat)

/-- The IPv4 bytes of an interface address, when it is an `IPNet`
holding an IPv4 (or IPv4-mapped) IP. -/
def ipv4Of (a : IntfAddr) : Option (List Nat) :=
  a.bind to4

/-- `interfaceIP` from `server/dhcp.go`, taking the interface's
configured address list (the result of `intf.Addrs()`): for each tier
predicate in order — global unicast, link-local unicast, loopback —
scan the whole address list for the first IPv4 match; error when no
tier matches.  (An `intf.Addrs()` I/O failure happens before this pure
scan and is outside the model.) -/
def interfaceIP (addrs : List IntfAddr) : Except String (List Nat) :=
  let fs : List (List Nat → Bool) := [isGlobalUnicastIP, isLinkLocalUnicastIP, isLoopbackIP]
  match fs.findSome? (fun f =>
    addrs.findSome? (fun a =>
      match ipv4Of a with
      | none => none
      | some ip => if f ip then some ip else none)) with
  | some ip => .ok ip
  | none => .error "no usable unicast address configured on interface"

/-- Statement-side scan of one tier: the first address in the list
whose IPv4 form satisfies the tier predicate. -/
def firstMatch (f : List Nat → Bool) : List IntfAddr → Option (List Nat)
  | [] => none
  | a :: rest =>
    match ipv4Of a with
    | some ip => if f ip then some ip else firstMatch f rest
    | none => firstMatch f rest

/-! ## Offer construction (`offerDHCP` in server/dhcp.go) -/

/-- Model of `net.IP.String` for the IPv4 addresses this server
resolves: dotted decimal; empty (nil) renders `<nil>`, other
non-IPv4 shapes are out of the modelled domain and render `?`. -/
def ipString (ip : List Nat) : String :=
  match to4 ip with
  | some [a, b, c, d] =>
    Nat.repr a ++ "." ++ Nat.repr b ++ "." ++ Nat.repr c ++ "." ++ Nat.repr d
  | some _ => "?"
  | none => if ip = [] then "<nil>" else "?"

/-- `offerDHCP` from `server/dhcp.go`.  The server's configured HTTP
port (`s.HTTPPort`, used only by the Pixiecore arm) is an explicit
argument.  The response options are built exactly in the order the Go
code assigns map keys (54, 60, optionally 97, then optionally 43); all
keys are distinct so association-list append models the map writes. -/
def offerDHCP (httpPort : Nat) (pkt : Packet) (mach : Machine) (serverIP : List Nat)
    (fwtype : Nat) : Except String Packet :=
  let baseOpts : DHCPOptions :=
    [(optServerIdentifier, serverIP), (optVendorIdentifier, strBytes "PXEClient")] ++
      (match getOpt pkt.options optUidGuidClientIdentifier with
       | some g => [(optUidGuidClientIdentifier, g)]
       | none => [])
  let resp : Packet :=
    { type := msgOffer
      transactionID := pkt.transactionID
      broadcast := true
      hardwareAddr := mach.mac
      clientAddr := []
      yourAddr := []
      serverAddr := serverIP
      relayAddr := pkt.relayAddr
      bootServerName := ""
      bootFilename := ""
      options := baseOpts }
  if fwtype = firmwareX86PC then
    match optionsMarshal [(6, [8])] with
    | .error e => .error ("failed to serialize PXE vendor options: " ++ e)
    | .ok bs =>
      .ok { resp with
        options := resp.options ++ [(optVendorSpecific, bs)]
        bootServerName := ipString serverIP
        bootFilename := hwAddrString mach.mac ++ "/" ++ Nat.repr fwtype }
  else if fwtype = firmwareX86Ipxe then
    match optionsMarshal [(6, [8])] with
    | .error e => .error ("failed to serialize PXE vendor options: " ++ e)
    | .ok bs =>
      .ok { resp with
        options := resp.options ++ [(optVendorSpecific, bs)]
        bootFilename := "tftp://" ++ ipString serverIP ++ "/" ++ hwAddrString mach.mac
          ++ "/" ++ Nat.repr fwtype }
  else if fwtype = firmwareEFI32 ∨ fwtype = firmwareEFI64 ∨ fwtype = firmwareEFIBC
      ∨ fwtype = firmwareEfiArm64 then
    .ok { resp with
      bootServerName := ipString serverIP
      bootFilename := hwAddrString mach.mac ++ "/" ++ Nat.repr fwtype }
  else if fwtype = firmwarePixiecoreIpxe then
    .ok { resp with
      bootFilename := "http://" ++ ipString serverIP ++ ":" ++ Nat.repr httpPort
        ++ "/_/ipxe?arch=" ++ Nat.repr mach.arch ++ "&mac=" ++ hwAddrString mach.mac }
  else .error ("unknown firmware type " ++ Nat.repr fwtype)

/-! ## The negotiation loop (`serveDHCP` in server/dhcp.go)

One loop iteration is a pure function of the received datagram and of
the effectful collaborators' outcomes for this request: the receive
result (an error, or a packet plus its arrival interface — the
`dhcp4.Conn` contract allows the interface information to be missing),
the boot-policy provider's answer (`s.Booter.BootSpec`), and the socket
write outcome of `conn.SendDHCP`.  An interface is represented by its
configured address list, which is all `interfaceIP` consumes.  Logging
and machine events are side effects with no data flow and are not
modelled. -/

/-- The opaque boot-policy value (§3 BootSpec): only its presence is
inspected by the loop. -/
structure BootSpec where
  tag : Nat
deriving DecidableEq

instance {ε α : Type} [DecidableEq ε] [DecidableEq α] : DecidableEq (Except ε α) := fun a b =>
  match a, b with
  | .error e, .error f => decidable_of_iff (e = f) (by simp)
  | .error _, .ok _ => isFalse (fun h => by cases h)
  | .ok _, .error _ => isFalse (fun h => by cases h)
  | .ok x, .ok y => decidable_of_iff (x = y) (by simp)

structure ServeInput where
  recv : Except String (Packet × Option (List IntfAddr))
  bootSpec : Except String (Option BootSpec)
  sendOk : Bool
deriving DecidableEq

/-- Outcome of one iteration of the negotiation loop: a fatal error
returned from `serveDHCP`, a dropped request (logged, loop continues,
no offer outstanding), or a successfully sent offer. -/
inductive StepOutcome where
  | fatal (msg : String)
  | drop
  | sent (resp : Packet)
deriving DecidableEq

/-- One iteration of the `serveDHCP` loop body, line for line:
receive; fail on receive error or missing interface information;
then `isBootDHCP`, `validateDHCP`, the boot-policy query, (nil spec ⇒
ignore), `interfaceIP`, `offerDHCP`, `SendDHCP` — every failure among
these drops the request and continues. -/
def serveStep (httpPort : Nat) (inp : ServeInput) : StepOutcome :=
  match inp.recv with
  | .error e => .fatal ("receiving DHCP packet: " ++ e)
  | .ok (_, none) =>
    .fatal "received DHCP packet with no interface information (this is a violation of the dhcp4.Conn contract, please file a bug)"
  | .ok (pkt, some intfAddrs) =>
    match isBootDHCP pkt with
    | .error _ => .drop
    | .ok _ =>
      match validateDHCP pkt with
      | .error _ => .drop
      | .ok (mach, fwtype) =>
        match inp.bootSpec with
        | .error _ => .drop
        | .ok none => .drop
        | .ok (some _) =>
          match interfaceIP intfAddrs with
          | .error _ => .drop
          | .ok serverIP =>
            match offerDHCP httpPort pkt mach serverIP fwtype with
            | .error _ => .drop
            | .ok resp => if inp.sendOk then .sent resp else .drop

/-- The `serveDHCP` loop over a finite trace of per-iteration inputs:
collects the offers sent and, when an iteration is fatal, the error
that `serveDHCP` returns (later inputs are never consumed).  `none`
means the trace was exhausted with the loop still running. -/
def serveDHCPLoop (httpPort : Nat) : List ServeInput → List Packet × Option String
  | [] => ([], none)
  | inp :: rest =>
    match serveStep httpPort inp with
    | .fatal e => ([], some e)
    | .drop => serveDHCPLoop httpPort rest
    | .sent r =>
      let (ps, e) := serveDHCPLoop httpPort rest
      (r :: ps, e)

/-! ## dhcp4/conn.go: the socket transport send path -/

/-- `dhcpClientPort` from `dhcp4/conn.go`. -/
def dhcpClientPort : Nat := 68

/-- The `txType` transmission-strategy enumeration from `dhcp4/conn.go`
(an integer enumeration, `iota` order). -/
def txBroadcast : Nat := 0

def txRelayAddr : Nat := 1

def txClientAddr : Nat := 2

def txHardwareAddr : Nat := 3

/-- Modelled from the spec: the Codec's transmission-strategy
classifier (`Packet.txType`, in the `dhcp4` packet file not under
`src/`).  Per §3: relay address present ⇒ relay; else broadcast flag
set or no offered (your) address ⇒ broadcast; else explicit link-layer
unicast. -/
def txTypeM (pkt : Packet) : Nat :=
  if pkt.relayAddr ≠ [] then txRelayAddr
  else if pkt.broadcast ∨ pkt.yourAddr = [] then txBroadcast
  else txHardwareAddr

/-- `net.IPv4bcast`, the limited-broadcast (all-ones) address. -/
def ipv4bcast : List Nat := [255, 255, 255, 255]

/-- A datagram handed to the socket by `SendDHCP`: payload bytes and
the wire destination address and port. -/
structure WireWrite where
  payload : List Nat
  dest : List Nat
  port : Nat
deriving DecidableEq

/-- `SendDHCP` from `dhcp4/conn.go` (`portableConn`).  The two codec
halves it calls (`pkt.Marshal` and `pkt.txType`) live in the `dhcp4`
packet file that is not under `src/`, so they are taken as function
arguments; `txTypeM` is the spec-modelled classifier.  The strategy
switch is translated arm for arm (broadcast and hardware-address
strategies both go to the all-ones address on the DHCP client port;
relay to the relay address on port 67; client-address to the client
address on the client port; any other value is an error). -/
def sendDHCP (marshal : Packet → Except String (List Nat)) (txType : Packet → Nat)
    (pkt : Packet) : Except String WireWrite :=
  match marshal pkt with
  | .error e => .error e
  | .ok b =>
    let t := txType pkt
    if t = txBroadcast ∨ t = txHardwareAddr then
      .ok { payload := b, dest := ipv4bcast, port := dhcpClientPort }
    else if t = txRelayAddr then
      .ok { payload := b, dest := pkt.relayAddr, port := 67 }
    else if t = txClientAddr then
      .ok { payload := b, dest := pkt.clientAddr, port := dhcpClientPort }
    else .error "unknown TX type for packet"

/-! ## server/tftp.go: the image dispatcher -/

/-- Value of a hexadecimal digit character, as Go `net`'s `xtoi`
accepts: `0-9`, `a-f`, `A-F`. -/
def hexVal (c : Char) : Option Nat :=
  if '0' ≤ c ∧ c ≤ '9' then some (c.toNat - 48)
  else if 'a' ≤ c ∧ c ≤ 'f' then some (c.toNat - 87)
  else if 'A' ≤ c ∧ c ≤ 'F' then some (c.toNat - 55)
  else none

/-- Hex-pair groups `xx<sep>xx<sep>...` (Go `ParseMAC`'s colon/dash
form): every group is two hex digits, groups separated by `sep`. -/
def parseHexPairs (sep : Char) : List Char → Option (List Nat)
  | [a, b] => do
    let x ← hexVal a
    let y ← hexVal b
    pure [16 * x + y]
  | a :: b :: s :: rest =>
    if s = sep then do
      let x ← hexVal a
      let y ← hexVal b
      let tl ← parseHexPairs sep rest
      pure ((16 * x + y) :: tl)
    else none
  | _ => none

/-- Hex-quad groups `xxxx.xxxx...` (Go `ParseMAC`'s dot form): every
group is four hex digits yielding two bytes, groups separated by dots. -/
def parseHexQuads : List Char → Option (List Nat)
  | [a, b, c, d] => do
    let w ← hexVal a
    let x ← hexVal b
    let y ← hexVal c
    let z ← hexVal d
    pure [16 * w + x, 16 * y + z]
  | a :: b :: c :: d :: s :: rest =>
    if s = '.' then do
      let w ← hexVal a
      let x ← hexVal b
      let y ← hexVal c
      let z ← hexVal d
      let tl ← parseHexQuads rest
      pure ((16 * w + x) :: (16 * y + z) :: tl)
    else none
  | _ => none

/-- Modelled from the Go standard library (`net.ParseMAC`, not part of
this repository): inputs of at least 14 characters in colon- or
dash-separated hex-pair notation or dot-separated hex-quad notation,
with 6, 8 or 20 octets in total. -/
def parseMACm (s : String) : Option (List Nat) :=
  let cs := s.data
  if cs.length < 14 then none
  else
    match cs.get? 2 with
    | some c2 =>
      if c2 = ':' ∨ c2 = '-' then
        match parseHexPairs c2 cs with
        | some hw =>
          if hw.length = 6 ∨ hw.length = 8 ∨ hw.length = 20 then some hw else none
        | none => none
      else if cs.get? 4 = some '.' then
        match parseHexQuads cs with
        | some hw =>
          if hw.length = 6 ∨ hw.length = 8 ∨ hw.length = 20 then some hw else none
        | none => none
      else none
    | none => none

/-- Modelled from the Go standard library (`strconv.Atoi`, not part of
this repository): an optional sign followed by at least one decimal
digit, value within the 64-bit signed integer range. -/
def atoiM (s : String) : Option Int :=
  let (sign, digs) : Int × List Char :=
    match s.data with
    | c :: rest =>
      if c = '+' then (1, rest)
      else if c = '-' then (-1, rest)
      else (1, s.data)
    | [] => (1, [])
  if digs = [] then none
  else if digs.all Char.isDigit then
    let v : Nat := digs.foldl (fun a c => a * 10 + (c.toNat - 48)) 0
    let r : Int := sign * v
    if -(2 ^ 63) ≤ r ∧ r ≤ 2 ^ 63 - 1 then some r else none
  else none

/-- Go `strings.Split(s, "/")` on the character list: split at every
slash, keeping empty segments (the result is never empty). -/
def splitSlash : List Char → List (List Char)
  | [] => [[]]
  | c :: rest =>
    if c = '/' then [] :: splitSlash rest
    else
      match splitSlash rest with
      | seg :: segs => (c :: seg) :: segs
      | [] => [[c]]

/-- `extractInfo` from `server/tftp.go`: split the path on `/`; demand
exactly two segments; parse the first as a MAC address and the second
as an integer. -/
def extractInfo (path : String) : Except String (List Nat × Int) :=
  match splitSlash path.data with
  | [p0, p1] =>
    match parseMACm (String.mk p0) with
    | none => .error ("invalid MAC address " ++ quoted (String.mk p0))
    | some mac =>
      match atoiM (String.mk p1) with
      | none => .error "not found"
      | some i => .ok (mac, i)
  | _ => .error "not found"

/-- The process-wide image map (`s.Ipxe`): firmware type code → boot
image bytes.  `handleTFTP` converts the parsed path integer to the
(integer-valued) firmware type for the lookup, so keys are `Int`. -/
abbrev ImageMap : Type := List (Int × List Nat)

/-- `handleTFTP` from `server/tftp.go`: any `extractInfo` failure
becomes `unknown path %q`; an unregistered firmware code becomes
`unknown firmware type %d`; a registered code returns the stored blob
and its byte length. -/
def handleTFTP (imgs : ImageMap) (path : String) : Except String (List Nat × Int) :=
  match extractInfo path with
  | .error _ => .error ("unknown path " ++ quoted path)
  | .ok (_, i) =>
    match (imgs.find? (fun p => p.1 == i)).map (·.2) with
    | none => .error ("unknown firmware type " ++ Int.repr i)
    | some bs => .ok (bs, (bs.length : Int))

/-! ## Concrete inputs used by the witness theorems -/

/-- A concrete relayed packet used across witnesses. -/
def pktRelayW : Packet :=
  { type := 1
    transactionID := [0, 0, 0, 1]
    broadcast := false
    hardwareAddr := [0xde, 0xad, 0xbe, 0xef, 0, 1]
    clientAddr := [10, 0, 0, 9]
    yourAddr := []
    serverAddr := []
    relayAddr := [10, 0, 0, 2]
    bootServerName := ""
    bootFilename := ""
    options := [(93, [0, 7])] }

/-- A concrete Raspberry-Pi-prefixed packet used by the C5 witness. -/
def pktRpiW : Packet :=
  { type := 1
    transactionID := [0, 0, 0, 2]
    broadcast := false
    hardwareAddr := [0xb8, 0x27, 0xeb, 1, 2, 3]
    clientAddr := []
    yourAddr := []
    serverAddr := []
    relayAddr := []
    bootServerName := ""
    bootFilename := ""
    options := [(93, [0, 0])] }

/-- A concrete packet carrying the user-class "iPXE" with architecture
code 0, used by the C6 witness. -/
def pktIpxeW : Packet :=
  { type := 1
    transactionID := [0, 0, 0, 3]
    broadcast := false
    hardwareAddr := [0xde, 0xad, 0xbe, 0xef, 0, 1]
    clientAddr := []
    yourAddr := []
    serverAddr := []
    relayAddr := []
    bootServerName := ""
    bootFilename := ""
    options := [(93, [0, 0]), (77, strBytes "iPXE")] }

/-- A concrete packet carrying a 17-byte GUID with nonzero leading
byte, used by the C7 witness. -/
def pktGuidBadW : Packet :=
  { type := 1
    transactionID := [0, 0, 0, 4]
    broadcast := false
    hardwareAddr := [0xde, 0xad, 0xbe, 0xef, 0, 1]
    clientAddr := []
    yourAddr := []
    serverAddr := []
    relayAddr := []
    bootServerName := ""
    bootFilename := ""
    options := [(93, [0, 7]), (97, [1, 0, 0, 0, 0, 0, 0, 0, 0, 0, 0, 0, 0, 0, 0, 0, 0])] }

/-- A concrete loop input whose boot-policy provider returns nil, used
by the C1 witness. -/
def inpNilSpecW : ServeInput :=
  { recv := .ok (pktRelayW, some [some [10, 0, 0, 1]])
    bootSpec := .ok none
    sendOk := true }

/-! # Theorems -/

/-! ## Helper lemmas -/

/-- The inner address scan of `interfaceIP` is the first IPv4 match of
the tier predicate. -/
theorem findSome_eq_firstMatch (f : List Nat → Bool) (addrs : List IntfAddr) :
    (addrs.findSome? (fun a =>
      match ipv4Of a with
      | none => none
      | some ip => if f ip then some ip else none)) = firstMatch f addrs := by
  induction addrs with
  | nil => rfl
  | cons a rest ih =>
    rw [List.findSome?_cons]
    cases h : ipv4Of a with
    | none => simpa [firstMatch, h] using ih
    | some ip =>
      by_cases hf : f ip <;> simp [firstMatch, h, hf, ih]

/-- A tier scan comes up empty exactly when no address in the list has
an IPv4 form satisfying the tier predicate. -/
theorem firstMatch_eq_none_iff (f : List Nat → Bool) (addrs : List IntfAddr) :
    firstMatch f addrs = none ↔
      ∀ a ∈ addrs, ∀ ip, ipv4Of a = some ip → f ip = false := by
  induction addrs with
  | nil => simp [firstMatch]
  | cons a rest ih =>
    cases h : ipv4Of a with
    | none =>
      simp only [firstMatch, h, List.mem_cons]
      constructor
      · intro hrest b hb ip hip
        rcases hb with rfl | hb
        · rw [h] at hip; cases hip
        · exact ih.mp hrest b hb ip hip
      · intro hall
        exact ih.mpr (fun b hb ip hip => hall b (Or.inr hb) ip hip)
    | some ip =>
      by_cases hf : f ip
      · simp only [firstMatch, h, hf, if_true]
        constructor
        · intro hc; cases hc
        · intro hall
          have := hall a (List.mem_cons_self a rest) ip h
          rw [hf] at this; cases this
      · simp only [firstMatch, h, hf, if_false, List.mem_cons]
        constructor
        · intro hrest b hb ipb hipb
          rcases hb with rfl | hb
          · rw [h] at hipb
            cases hipb
            exact Bool.eq_false_iff.mpr hf
          · exact ih.mp hrest b hb ipb hipb
        · intro hall
          exact ih.mpr (fun b hb ipb hipb => hall b (Or.inr hb) ipb hipb)

/-! ## C8: interface address resolution scans tiers in order -/

/-- C8: `interfaceIP` scans all configured addresses in three priority
tiers — global unicast, then link-local unicast, then loopback —
completing a full scan of a tier before falling to the next, returns
the first IPv4 match of the highest non-empty tier (non-IPv4 addresses
ignored, as captured by `firstMatch`/`ipv4Of`), and fails with the
no-address error iff no tier contains an IPv4 match. -/
theorem interfaceIP_tier_order (addrs : List IntfAddr) :
    (interfaceIP addrs = .error "no usable unicast address configured on interface" ↔
      firstMatch isGlobalUnicastIP addrs = none ∧
      firstMatch isLinkLocalUnicastIP addrs = none ∧
      firstMatch isLoopbackIP addrs = none) ∧
    (∀ ip, firstMatch isGlobalUnicastIP addrs = some ip → interfaceIP addrs = .ok ip) ∧
    (∀ ip, firstMatch isGlobalUnicastIP addrs = none →
      firstMatch isLinkLocalUnicastIP addrs = some ip → interfaceIP addrs = .ok ip) ∧
    (∀ ip, firstMatch isGlobalUnicastIP addrs = none →
      firstMatch isLinkLocalUnicastIP addrs = none →
      firstMatch isLoopbackIP addrs = some ip → interfaceIP addrs = .ok ip) ∧
    (∀ f, firstMatch f addrs = none ↔
      ∀ a ∈ addrs, ∀ ip, ipv4Of a = some ip → f ip = false) := by
  have hG := findSome_eq_firstMatch isGlobalUnicastIP addrs
  have hL := findSome_eq_firstMatch isLinkLocalUnicastIP addrs
  have hO := findSome_eq_firstMatch isLoopbackIP addrs
  refine ⟨?_, ?_, ?_, ?_, fun f => firstMatch_eq_none_iff f addrs⟩
  · unfold interfaceIP
    simp only [List.findSome?_cons, List.findSome?_nil, hG, hL, hO]
    cases firstMatch isGlobalUnicastIP addrs <;>
      cases firstMatch isLinkLocalUnicastIP addrs <;>
        cases firstMatch isLoopbackIP addrs <;> simp
  · intro ip hip
    unfold interfaceIP
    simp only [List.findSome?_cons, hG, hip]
  · intro ip hg hip
    unfold interfaceIP
    simp only [List.findSome?_cons, hG, hL, hg, hip]
  · intro ip hg hl hip
    unfold interfaceIP
    simp only [List.findSome?_cons, List.findSome?_nil, hG, hL, hO, hg, hl, hip]

/-- Witness for C8 on a concrete interface: loopback, link-local and a
global-unicast address configured; the global-unicast one wins. -/
theorem interfaceIP_tier_order_witness :
    firstMatch isGlobalUnicastIP
        [some [127,0,0,1], some [169,254,1,1], none, some [192,168,1,5]] =
      some [192,168,1,5] ∧
    interfaceIP [some [127,0,0,1], some [169,254,1,1], none, some [192,168,1,5]] =
      .ok [192,168,1,5] :=
  ⟨by decide,
   (interfaceIP_tier_order [some [127,0,0,1], some [169,254,1,1], none, some [192,168,1,5]]).2.1
     [192,168,1,5] (by decide)⟩

/-! ## C9: SendDHCP wire destination per transmission strategy -/

/-- C9: for every packet, the destination `SendDHCP` writes to is
determined by the packet's transmission strategy as classified by the
codec: broadcast-class strategies (broadcast and hardware-address) go
to the all-ones address on port 68, the relay strategy goes to the
relay address on port 67, and the client-address strategy goes to the
client address on port 68. -/
theorem sendDHCP_destination (marshal : Packet → Except String (List Nat))
    (txType : Packet → Nat) (pkt : Packet) (b : List Nat)
    (h : marshal pkt = .ok b) :
    (txType pkt = txBroadcast ∨ txType pkt = txHardwareAddr →
      sendDHCP marshal txType pkt = .ok { payload := b, dest := ipv4bcast, port := 68 }) ∧
    (txType pkt = txRelayAddr →
      sendDHCP marshal txType pkt = .ok { payload := b, dest := pkt.relayAddr, port := 67 }) ∧
    (txType pkt = txClientAddr →
      sendDHCP marshal txType pkt = .ok { payload := b, dest := pkt.clientAddr, port := 68 }) := by
  refine ⟨fun ht => ?_, fun ht => ?_, fun ht => ?_⟩
  · rcases ht with ht | ht <;>
      simp [sendDHCP, h, ht, txBroadcast, txRelayAddr, txClientAddr, txHardwareAddr,
        dhcpClientPort]
  · simp [sendDHCP, h, ht, txBroadcast, txRelayAddr, txClientAddr, txHardwareAddr,
      dhcpClientPort]
  · simp [sendDHCP, h, ht, txBroadcast, txRelayAddr, txClientAddr, txHardwareAddr,
      dhcpClientPort]

/-- Witness for C9: a packet with a relay address, classified by the
spec-modelled strategy function, is sent to the relay address on port
67. -/
theorem sendDHCP_destination_witness :
    (fun _ : Packet => (.ok [9] : Except String (List Nat))) pktRelayW = .ok [9] ∧
    txTypeM pktRelayW = txRelayAddr ∧
    sendDHCP (fun _ => .ok [9]) txTypeM pktRelayW =
      .ok { payload := [9], dest := [10, 0, 0, 2], port := 67 } :=
  ⟨rfl, by decide,
   (sendDHCP_destination (fun _ => .ok [9]) txTypeM pktRelayW [9] rfl).2.1 (by decide)⟩

/-! ## C10: the served image is independent of the hardware address -/

/-- C10: two accepted file-transfer paths carrying the same
firmware-type code receive identical dispatch results — blob, length,
or unknown-firmware error — regardless of their hardware-address
segments. -/
theorem handleTFTP_independent_of_mac (imgs : ImageMap) (p1 p2 : String)
    (mac1 mac2 : List Nat) (i : Int)
    (h1 : extractInfo p1 = .ok (mac1, i)) (h2 : extractInfo p2 = .ok (mac2, i)) :
    handleTFTP imgs p1 = handleTFTP imgs p2 := by
  unfold handleTFTP
  rw [h1, h2]

/-- Witness for C10: two paths with different valid MAC addresses and
the same registered code 11 are served the same blob. -/
theorem handleTFTP_independent_of_mac_witness :
    extractInfo "aa:bb:cc:dd:ee:ff/11" = .ok ([170, 187, 204, 221, 238, 255], 11) ∧
    extractInfo "de:ad:be:ef:00:01/11" = .ok ([222, 173, 190, 239, 0, 1], 11) ∧
    handleTFTP [(11, [1, 2, 3])] "aa:bb:cc:dd:ee:ff/11" =
      handleTFTP [(11, [1, 2, 3])] "de:ad:be:ef:00:01/11" :=
  ⟨by decide, by decide,
   handleTFTP_independent_of_mac [(11, [1, 2, 3])] "aa:bb:cc:dd:ee:ff/11"
     "de:ad:be:ef:00:01/11" [170, 187, 204, 221, 238, 255] [222, 173, 190, 239, 0, 1] 11
     (by decide) (by decide)⟩

/-! ## C4: the image dispatcher path grammar -/

/-- Counterexample to C4 as stated: the second path segment is parsed
with Go `strconv.Atoi`, which accepts signed integers, so the path
whose first segment is `aa:bb:cc:dd:ee:ff` and whose second segment is
`-1` — not a non-negative integer — is *accepted* by `extractInfo` instead of
yielding a "not found" error, and the dispatcher proceeds to the image
lookup, failing with "unknown firmware type -1". -/
theorem extractInfo_accepts_negative_code :
    extractInfo "aa:bb:cc:dd:ee:ff/-1" = .ok ([170, 187, 204, 221, 238, 255], -1) ∧
    handleTFTP [(11, [1, 2, 3])] "aa:bb:cc:dd:ee:ff/-1" =
      .error ("unknown firmware type " ++ Int.repr (-1)) ∧
    ("unknown firmware type " ++ Int.repr (-1) ≠ "not found") := by
  refine ⟨by decide, by decide, by decide⟩

/-- C4 (amended): the path is accepted exactly when it consists of two
slash-separated segments whose first parses as a MAC address and whose
second parses as a decimal integer (optionally signed, Go `Atoi`); a
path with a different segment count or an unparsable integer yields
"not found", a two-segment path with an unparsable MAC yields an
"invalid MAC address" error (the handler surfaces every such parse
failure as "unknown path"); an accepted path with an unregistered code
fails naming that code, and a registered code returns exactly the
stored blob and its byte length. -/
theorem tftp_dispatch_characterization (imgs : ImageMap) (path : String) :
    ((splitSlash path.data).length ≠ 2 → extractInfo path = .error "not found") ∧
    (∀ p0 p1, splitSlash path.data = [p0, p1] →
      (parseMACm (String.mk p0) = none →
        extractInfo path = .error ("invalid MAC address " ++ quoted (String.mk p0))) ∧
      (∀ mac, parseMACm (String.mk p0) = some mac →
        (atoiM (String.mk p1) = none → extractInfo path = .error "not found") ∧
        (∀ i, atoiM (String.mk p1) = some i → extractInfo path = .ok (mac, i)))) ∧
    (∀ e, extractInfo path = .error e →
      handleTFTP imgs path = .error ("unknown path " ++ quoted path)) ∧
    (∀ mac i, extractInfo path = .ok (mac, i) →
      (imgs.find? (fun p => p.1 == i) = none →
        handleTFTP imgs path = .error ("unknown firmware type " ++ Int.repr i)) ∧
      (∀ bs, (imgs.find? (fun p => p.1 == i)).map (·.2) = some bs →
        handleTFTP imgs path = .ok (bs, (bs.length : Int)))) := by
  refine ⟨?_, ?_, ?_, ?_⟩
  · intro hlen
    unfold extractInfo
    match hsp : splitSlash path.data with
    | [] => rfl
    | [_] => rfl
    | [p0, p1] => rw [hsp] at hlen; simp at hlen
    | _ :: _ :: _ :: _ => rfl
  · intro p0 p1 hsp
    refine ⟨fun hmac => ?_, fun mac hmac => ⟨fun hat => ?_, fun i hat => ?_⟩⟩ <;>
      simp only [extractInfo, hsp, hmac] <;> simp [hat]
  · intro e he
    unfold handleTFTP
    rw [he]
  · intro mac i hok
    unfold handleTFTP
    rw [hok]
    refine ⟨fun hf => ?_, fun bs hbs => ?_⟩
    · simp only [hf, Option.map_none']
    · simp only [hbs]

/-- Witness for C4 (amended) on concrete paths: a registered code is
served with the blob and its length, an unregistered shape is "not
found", and the handler surfaces parse failures as "unknown path". -/
theorem tftp_dispatch_characterization_witness :
    splitSlash ("aa:bb:cc:dd:ee:ff/11" : String).data =
      ["aa:bb:cc:dd:ee:ff".data, "11".data] ∧
    parseMACm (String.mk "aa:bb:cc:dd:ee:ff".data) =
      some [170, 187, 204, 221, 238, 255] ∧
    atoiM (String.mk "11".data) = some 11 ∧
    extractInfo "aa:bb:cc:dd:ee:ff/11" = .ok ([170, 187, 204, 221, 238, 255], 11) ∧
    (splitSlash ("not-a-path" : String).data).length ≠ 2 ∧
    extractInfo "not-a-path" = .error "not found" :=
  ⟨by decide, by decide, by decide,
   ((tftp_dispatch_characterization [] "aa:bb:cc:dd:ee:ff/11").2.1
       "aa:bb:cc:dd:ee:ff".data "11".data (by decide)).2
     [170, 187, 204, 221, 238, 255] (by decide) |>.2 11 (by decide),
   by decide,
   (tftp_dispatch_characterization [] "not-a-path").1 (by decide)⟩

/-! ## C2: the fixed architecture table of validateDHCP -/

/-- C2: for every packet whose architecture option parses as a 16-bit
code, `validateDHCP` follows the fixed table: codes 16 and 19 error
naming the HTTP-boot variant, every other unmapped code errors with
"unsupported client firmware type" quoting the code, and the mapped
codes 0, 6, 7, 9, 11 yield the `archTable` (architecture, firmware)
pair — stated for packets on which the later refinement steps do not
interfere: no user-class option, an acceptable GUID, and not the
RPI-prefix-with-code-0 heuristic. -/
theorem validateDHCP_arch_table (pkt : Packet) (fwt : Nat)
    (h93 : optUint16 pkt.options optClientSystem = .ok fwt) :
    (fwt = 16 → validateDHCP pkt = .error msgHTTPx64) ∧
    (fwt = 19 → validateDHCP pkt = .error msgHTTPArm64) ∧
    (fwt ∉ ([0, 6, 7, 9, 11, 16, 19] : List Nat) →
      validateDHCP pkt = .error (unsupportedFwMsg fwt)) ∧
    (getOpt pkt.options optUserClass = none → guidOk pkt →
      ¬(hasAnyPfx (hwAddrString pkt.hardwareAddr) rpiPrefixes = true ∧ fwt = 0) →
      ∀ pair, archTable fwt = some pair →
        validateDHCP pkt = .ok ({ mac := pkt.hardwareAddr, arch := pair.1 }, pair.2)) := by
  refine ⟨?_, ?_, ?_, ?_⟩
  · rintro rfl
    simp [validateDHCP, h93]
  · rintro rfl
    simp [validateDHCP, h93]
  · intro hmem
    simp only [List.mem_cons, List.not_mem_nil, or_false, not_or] at hmem
    obtain ⟨n0, n6, n7, n9, n11, n16, n19⟩ := hmem
    simp [validateDHCP, h93, n0, n6, n7, n9, n11, n16, n19]
  · intro h77 hguid hrpi pair hpair
    unfold archTable at hpair
    have hg := hguid
    unfold guidOk at hg
    split_ifs at hpair with hf0 hf6 hf7 hf9 hf11
    · subst hf0
      injection hpair with hp
      subst hp
      have hb : hasAnyPfx (hwAddrString pkt.hardwareAddr) rpiPrefixes = false :=
        Bool.eq_false_iff.mpr (fun h => hrpi ⟨h, rfl⟩)
      rcases hg with h0 | ⟨h17, hh⟩
      · simp [validateDHCP, h93, h77, hb, h0]
      · rw [List.headD_eq_head?] at hh
        simp [validateDHCP, h93, h77, hb, h17, hh]
    · subst hf6
      injection hpair with hp
      subst hp
      rcases hg with h0 | ⟨h17, hh⟩
      · simp [validateDHCP, h93, h77, h0]
      · rw [List.headD_eq_head?] at hh
        simp [validateDHCP, h93, h77, h17, hh]
    · subst hf7
      injection hpair with hp
      subst hp
      rcases hg with h0 | ⟨h17, hh⟩
      · simp [validateDHCP, h93, h77, h0]
      · rw [List.headD_eq_head?] at hh
        simp [validateDHCP, h93, h77, h17, hh]
    · subst hf9
      injection hpair with hp
      subst hp
      rcases hg with h0 | ⟨h17, hh⟩
      · simp [validateDHCP, h93, h77, h0]
      · rw [List.headD_eq_head?] at hh
        simp [validateDHCP, h93, h77, h17, hh]
    · subst hf11
      injection hpair with hp
      subst hp
      rcases hg with h0 | ⟨h17, hh⟩
      · simp [validateDHCP, h93, h77, h0]
      · rw [List.headD_eq_head?] at hh
        simp [validateDHCP, h93, h77, h17, hh]

/-- Evaluation of `validateDHCP` on the success path: once option 93
parses to a table-mapped code, the RPI heuristic does not fire and the
GUID is acceptable, the result is the table pair with the firmware
type refined by the user-class option exactly as the source computes
it. -/
theorem validateDHCP_ok_form (pkt : Packet) (fwt arch fw0 : Nat)
    (h93 : optUint16 pkt.options optClientSystem = .ok fwt)
    (htbl : archTable fwt = some (arch, fw0))
    (hrpi : ¬(hasAnyPfx (hwAddrString pkt.hardwareAddr) rpiPrefixes = true ∧ fwt = 0))
    (hguid : guidOk pkt) :
    validateDHCP pkt = .ok ({ mac := pkt.hardwareAddr, arch := arch },
      match getOpt pkt.options optUserClass with
      | some uc =>
        if uc = strBytes "pixiecore" then firmwarePixiecoreIpxe
        else if uc = strBytes "iPXE" ∧ fw0 = firmwareX86PC then firmwareX86Ipxe
        else fw0
      | none => fw0) := by
  have hg := hguid
  unfold guidOk at hg
  unfold archTable at htbl
  split_ifs at htbl with hf0 hf6 hf7 hf9 hf11
  · subst hf0
    injection htbl with hp
    injection hp.symm with h1 h2
    subst h1
    subst h2
    have hb : hasAnyPfx (hwAddrString pkt.hardwareAddr) rpiPrefixes = false :=
      Bool.eq_false_iff.mpr (fun h => hrpi ⟨h, rfl⟩)
    rcases hg with h0 | ⟨h17, hh⟩
    · simp [validateDHCP, h93, hb, h0]
    · rw [List.headD_eq_head?] at hh
      simp [validateDHCP, h93, hb, h17, hh]
  · subst hf6
    injection htbl with hp
    injection hp.symm with h1 h2
    subst h1
    subst h2
    rcases hg with h0 | ⟨h17, hh⟩
    · simp [validateDHCP, h93, h0]
    · rw [List.headD_eq_head?] at hh
      simp [validateDHCP, h93, h17, hh]
  · subst hf7
    injection htbl with hp
    injection hp.symm with h1 h2
    subst h1
    subst h2
    rcases hg with h0 | ⟨h17, hh⟩
    · simp [validateDHCP, h93, h0]
    · rw [List.headD_eq_head?] at hh
      simp [validateDHCP, h93, h17, hh]
  · subst hf9
    injection htbl with hp
    injection hp.symm with h1 h2
    subst h1
    subst h2
    rcases hg with h0 | ⟨h17, hh⟩
    · simp [validateDHCP, h93, h0]
    · rw [List.headD_eq_head?] at hh
      simp [validateDHCP, h93, h17, hh]
  · subst hf11
    injection htbl with hp
    injection hp.symm with h1 h2
    subst h1
    subst h2
    rcases hg with h0 | ⟨h17, hh⟩
    · simp [validateDHCP, h93, h0]
    · rw [List.headD_eq_head?] at hh
      simp [validateDHCP, h93, h17, hh]

/-- Evaluation of `validateDHCP` on the malformed-GUID paths: under
the same non-error preconditions for the earlier steps, a 17-byte GUID
with nonzero leading byte and a GUID of any other nonzero length each
produce the corresponding error. -/
theorem validateDHCP_guid_error (pkt : Packet) (fwt arch fw0 : Nat)
    (h93 : optUint16 pkt.options optClientSystem = .ok fwt)
    (htbl : archTable fwt = some (arch, fw0))
    (hrpi : ¬(hasAnyPfx (hwAddrString pkt.hardwareAddr) rpiPrefixes = true ∧ fwt = 0)) :
    (((getOpt pkt.options optUidGuidClientIdentifier).getD []).length = 17 →
      ((getOpt pkt.options optUidGuidClientIdentifier).getD []).headD 0 ≠ 0 →
      validateDHCP pkt = .error msgGUIDLeading) ∧
    (((getOpt pkt.options optUidGuidClientIdentifier).getD []).length ≠ 0 →
      ((getOpt pkt.options optUidGuidClientIdentifier).getD []).length ≠ 17 →
      validateDHCP pkt = .error msgGUIDSize) := by
  unfold archTable at htbl
  split_ifs at htbl with hf0 hf6 hf7 hf9 hf11
  case pos =>
    subst hf0
    have hb : hasAnyPfx (hwAddrString pkt.hardwareAddr) rpiPrefixes = false :=
      Bool.eq_false_iff.mpr (fun h => hrpi ⟨h, rfl⟩)
    constructor
    · intro h17 hh
      rw [List.headD_eq_head?] at hh
      simp [validateDHCP, h93, hb, h17, hh]
    · intro hl0 hl17
      simp [validateDHCP, h93, hb, hl0, hl17]
  all_goals
    first
    | (subst hf6
       constructor
       · intro h17 hh
         rw [List.headD_eq_head?] at hh
         simp [validateDHCP, h93, h17, hh]
       · intro hl0 hl17
         simp [validateDHCP, h93, hl0, hl17])
    | (subst hf7
       constructor
       · intro h17 hh
         rw [List.headD_eq_head?] at hh
         simp [validateDHCP, h93, h17, hh]
       · intro hl0 hl17
         simp [validateDHCP, h93, hl0, hl17])
    | (subst hf9
       constructor
       · intro h17 hh
         rw [List.headD_eq_head?] at hh
         simp [validateDHCP, h93, h17, hh]
       · intro hl0 hl17
         simp [validateDHCP, h93, hl0, hl17])
    | (subst hf11
       constructor
       · intro h17 hh
         rw [List.headD_eq_head?] at hh
         simp [validateDHCP, h93, h17, hh]
       · intro hl0 hl17
         simp [validateDHCP, h93, hl0, hl17])

/-- Witness for C2 on a concrete packet: architecture code 7 with no
refining options maps to (64-bit, EFI64). -/
theorem validateDHCP_arch_table_witness :
    optUint16 pktRelayW.options optClientSystem = .ok 7 ∧
    archTable 7 = some (archX64, firmwareEFI64) ∧
    validateDHCP pktRelayW =
      .ok ({ mac := pktRelayW.hardwareAddr, arch := archX64 }, firmwareEFI64) :=
  ⟨by decide, by decide,
   (validateDHCP_arch_table pktRelayW 7 (by decide)).2.2.2
     (by decide) (by decide) (by decide) (archX64, firmwareEFI64) (by decide)⟩

/-! ## C5: the RPI vendor-prefix heuristic overrides code 0 -/

/-- C5: a packet whose hardware address (in textual form) starts with
one of the five known vendor MAC prefixes and whose architecture code
is 0 is rejected with the "unsupported client firmware type" error and
never receives the BIOS-PXE classification code 0 alone would give. -/
theorem validateDHCP_rpi_rejected (pkt : Packet)
    (h93 : optUint16 pkt.options optClientSystem = .ok 0)
    (hpfx : hasAnyPfx (hwAddrString pkt.hardwareAddr) rpiPrefixes = true) :
    validateDHCP pkt = .error (unsupportedFwMsg 0) ∧
    ∀ mf, validateDHCP pkt ≠ .ok mf := by
  have h : validateDHCP pkt = .error (unsupportedFwMsg 0) := by
    simp [validateDHCP, h93, hpfx]
  exact ⟨h, fun mf hc => by rw [h] at hc; cases hc⟩

/-- Witness for C5: MAC `b8:27:eb:01:02:03` with architecture code 0
is rejected. -/
theorem validateDHCP_rpi_rejected_witness :
    optUint16 pktRpiW.options optClientSystem = .ok 0 ∧
    hasAnyPfx (hwAddrString pktRpiW.hardwareAddr) rpiPrefixes = true ∧
    validateDHCP pktRpiW = .error (unsupportedFwMsg 0) :=
  ⟨by decide, by decide,
   (validateDHCP_rpi_rejected pktRpiW (by decide) (by decide)).1⟩

/-! ## C6: user-class refinement of the firmware type -/

/-- C6: a well-formed user-class option refines the firmware type: the
value "iPXE" promotes BIOS-PXE to x86-iPXE and leaves every other
table-derived type unchanged; the value "pixiecore" promotes any
current type to Pixiecore-iPXE-second-stage; the machine architecture
is the table architecture in every case, unaffected by the
refinement. -/
theorem validateDHCP_user_class_refinement (pkt : Packet) (fwt arch fw0 : Nat)
    (h93 : optUint16 pkt.options optClientSystem = .ok fwt)
    (htbl : archTable fwt = some (arch, fw0))
    (hrpi : ¬(hasAnyPfx (hwAddrString pkt.hardwareAddr) rpiPrefixes = true ∧ fwt = 0))
    (hguid : guidOk pkt) :
    (getOpt pkt.options optUserClass = some (strBytes "iPXE") →
      validateDHCP pkt = .ok ({ mac := pkt.hardwareAddr, arch := arch },
        if fw0 = firmwareX86PC then firmwareX86Ipxe else fw0)) ∧
    (getOpt pkt.options optUserClass = some (strBytes "pixiecore") →
      validateDHCP pkt = .ok ({ mac := pkt.hardwareAddr, arch := arch },
        firmwarePixiecoreIpxe)) := by
  have hform := validateDHCP_ok_form pkt fwt arch fw0 h93 htbl hrpi hguid
  have hne : strBytes "iPXE" ≠ strBytes "pixiecore" := by decide
  constructor
  · intro huc
    rw [hform, huc]
    simp [hne]
  · intro huc
    rw [hform, huc]
    simp

/-- Witness for C6: user-class "iPXE" on a BIOS-PXE (code 0) client
promotes the firmware type to x86-iPXE, architecture unchanged. -/
theorem validateDHCP_user_class_refinement_witness :
    optUint16 pktIpxeW.options optClientSystem = .ok 0 ∧
    archTable 0 = some (archIA32, firmwareX86PC) ∧
    getOpt pktIpxeW.options optUserClass = some (strBytes "iPXE") ∧
    validateDHCP pktIpxeW =
      .ok ({ mac := pktIpxeW.hardwareAddr, arch := archIA32 },
        if firmwareX86PC = firmwareX86PC then firmwareX86Ipxe else firmwareX86PC) :=
  ⟨by decide, by decide, by decide,
   (validateDHCP_user_class_refinement pktIpxeW 0 archIA32 firmwareX86PC (by decide)
       (by decide) (by decide) (by decide)).1 (by decide)⟩

/-! ## C7: GUID validation -/

/-- C7: under the preconditions of reaching the GUID check, an absent
GUID (length 0) is accepted, a 17-byte GUID with leading byte zero is
accepted, a 17-byte GUID with nonzero leading byte yields the
leading-byte error, and any other nonzero length yields the wrong-size
error. -/
theorem validateDHCP_guid_validation (pkt : Packet) (fwt arch fw0 : Nat)
    (h93 : optUint16 pkt.options optClientSystem = .ok fwt)
    (htbl : archTable fwt = some (arch, fw0))
    (hrpi : ¬(hasAnyPfx (hwAddrString pkt.hardwareAddr) rpiPrefixes = true ∧ fwt = 0)) :
    (((getOpt pkt.options optUidGuidClientIdentifier).getD []).length = 0 →
      ∃ mf, validateDHCP pkt = .ok mf) ∧
    (((getOpt pkt.options optUidGuidClientIdentifier).getD []).length = 17 →
      ((getOpt pkt.options optUidGuidClientIdentifier).getD []).headD 0 = 0 →
      ∃ mf, validateDHCP pkt = .ok mf) ∧
    (((getOpt pkt.options optUidGuidClientIdentifier).getD []).length = 17 →
      ((getOpt pkt.options optUidGuidClientIdentifier).getD []).headD 0 ≠ 0 →
      validateDHCP pkt = .error msgGUIDLeading) ∧
    (((getOpt pkt.options optUidGuidClientIdentifier).getD []).length ≠ 0 →
      ((getOpt pkt.options optUidGuidClientIdentifier).getD []).length ≠ 17 →
      validateDHCP pkt = .error msgGUIDSize) := by
  refine ⟨fun h0 => ?_, fun h17 hh => ?_, fun h17 hh => ?_, fun hl0 hl17 => ?_⟩
  · exact ⟨_, validateDHCP_ok_form pkt fwt arch fw0 h93 htbl hrpi (Or.inl h0)⟩
  · exact ⟨_, validateDHCP_ok_form pkt fwt arch fw0 h93 htbl hrpi (Or.inr ⟨h17, hh⟩)⟩
  · exact (validateDHCP_guid_error pkt fwt arch fw0 h93 htbl hrpi).1 h17 hh
  · exact (validateDHCP_guid_error pkt fwt arch fw0 h93 htbl hrpi).2 hl0 hl17

/-- Witness for C7: a 17-byte GUID with leading byte 1 on an otherwise
valid EFI64 request yields the leading-byte error. -/
theorem validateDHCP_guid_validation_witness :
    optUint16 pktGuidBadW.options optClientSystem = .ok 7 ∧
    ((getOpt pktGuidBadW.options optUidGuidClientIdentifier).getD []).length = 17 ∧
    ((getOpt pktGuidBadW.options optUidGuidClientIdentifier).getD []).headD 0 = 1 ∧
    validateDHCP pktGuidBadW = .error msgGUIDLeading :=
  ⟨by decide, by decide, by decide,
   (validateDHCP_guid_validation pktGuidBadW 7 archX64 firmwareEFI64 (by decide)
       (by decide) (by decide)).2.2.1 (by decide) (by decide)⟩

/-! ## C3: shape of the constructed offer -/

/-- C3: for every request, machine, resolved server address and known
firmware type, `offerDHCP` succeeds and the offer carries message type
Offer, the request's transaction id, broadcast flag true, the
machine's hardware address, the request's relay address, the resolved
server address, a server-identifier option equal to the server
address, vendor-class-identifier "PXEClient", and mirrors the
client-GUID option iff the request carried one; boot server name and
boot filename follow the per-firmware-type table (BIOS-PXE: server
name = server address, filename `<hw-addr>/<type-code>`, vendor
option set; x86-iPXE: `tftp://` URL, no server name; EFI types: server
name = server address, plain filename, no vendor-specific option;
Pixiecore: the HTTP handoff URL with architecture code and hardware
address as query parameters). -/
theorem offerDHCP_shape (httpPort : Nat) (pkt : Packet) (mach : Machine)
    (serverIP : List Nat) (fwtype : Nat)
    (hfw : fwtype ∈ ([firmwareX86PC, firmwareX86Ipxe, firmwareEFI32, firmwareEFI64,
      firmwareEFIBC, firmwareEfiArm64, firmwarePixiecoreIpxe] : List Nat)) :
    (∃ resp, offerDHCP httpPort pkt mach serverIP fwtype = .ok resp) ∧
    (∀ resp, offerDHCP httpPort pkt mach serverIP fwtype = .ok resp →
      resp.type = msgOffer ∧
      resp.transactionID = pkt.transactionID ∧
      resp.broadcast = true ∧
      resp.hardwareAddr = mach.mac ∧
      resp.relayAddr = pkt.relayAddr ∧
      resp.serverAddr = serverIP ∧
      getOpt resp.options optServerIdentifier = some serverIP ∧
      getOpt resp.options optVendorIdentifier = some (strBytes "PXEClient") ∧
      getOpt resp.options optUidGuidClientIdentifier =
        getOpt pkt.options optUidGuidClientIdentifier ∧
      (fwtype = firmwareX86PC →
        resp.bootServerName = ipString serverIP ∧
        resp.bootFilename = hwAddrString mach.mac ++ "/" ++ Nat.repr fwtype ∧
        getOpt resp.options optVendorSpecific = some [6, 1, 8, 255]) ∧
      (fwtype = firmwareX86Ipxe →
        resp.bootServerName = "" ∧
        resp.bootFilename = "tftp://" ++ ipString serverIP ++ "/" ++ hwAddrString mach.mac
          ++ "/" ++ Nat.repr fwtype ∧
        getOpt resp.options optVendorSpecific = some [6, 1, 8, 255]) ∧
      (fwtype = firmwareEFI32 ∨ fwtype = firmwareEFI64 ∨ fwtype = firmwareEFIBC ∨
          fwtype = firmwareEfiArm64 →
        resp.bootServerName = ipString serverIP ∧
        resp.bootFilename = hwAddrString mach.mac ++ "/" ++ Nat.repr fwtype ∧
        getOpt resp.options optVendorSpecific = none) ∧
      (fwtype = firmwarePixiecoreIpxe →
        resp.bootServerName = "" ∧
        resp.bootFilename = "http://" ++ ipString serverIP ++ ":" ++ Nat.repr httpPort
          ++ "/_/ipxe?arch=" ++ Nat.repr mach.arch ++ "&mac=" ++ hwAddrString mach.mac)) := by
  simp only [List.mem_cons, List.not_mem_nil, or_false] at hfw
  rcases hg : getOpt pkt.options optUidGuidClientIdentifier with _ | g <;>
    rcases hfw with rfl | rfl | rfl | rfl | rfl | rfl | rfl <;>
      constructor <;>
        first
          | exact ⟨_, rfl⟩
          | (intro resp h
             simp only [offerDHCP, hg, optionsMarshal] at h
             simp only [firmwareX86PC, firmwareX86Ipxe, firmwareEFI32, firmwareEFI64,
               firmwareEFIBC, firmwareEfiArm64, firmwarePixiecoreIpxe] at h ⊢
             norm_num at h
             subst h
             refine ⟨rfl, rfl, rfl, rfl, rfl, rfl, ?_, ?_, ?_, ?_, ?_, ?_, ?_⟩ <;>
               simp [getOpt, optServerIdentifier, optVendorIdentifier, optVendorSpecific,
                 optUidGuidClientIdentifier, hg])

/-- Witness for C3 at the spec's determinism example: hardware address
`de:ad:be:ef:00:01`, firmware type code 0 (BIOS-PXE), server address
`10.0.0.1` — the offer exists. -/
theorem offerDHCP_shape_witness :
    firmwareX86PC ∈ ([firmwareX86PC, firmwareX86Ipxe, firmwareEFI32, firmwareEFI64,
      firmwareEFIBC, firmwareEfiArm64, firmwarePixiecoreIpxe] : List Nat) ∧
    (∃ resp, offerDHCP 8080 pktRelayW
        { mac := [0xde, 0xad, 0xbe, 0xef, 0, 1], arch := archIA32 }
        [10, 0, 0, 1] firmwareX86PC = .ok resp) :=
  ⟨by decide,
   (offerDHCP_shape 8080 pktRelayW
      { mac := [0xde, 0xad, 0xbe, 0xef, 0, 1], arch := archIA32 }
      [10, 0, 0, 1] firmwareX86PC (by decide)).1⟩

/-! ## C1: fault containment of the negotiation loop -/

/-- Every iteration whose receive step delivered a packet with
interface information either drops the request or sends an offer after
every stage succeeded. -/
theorem serveStep_drop_or_sent (httpPort : Nat) (inp : ServeInput) (pkt : Packet)
    (addrs : List IntfAddr) (hrecv : inp.recv = .ok (pkt, some addrs)) :
    serveStep httpPort inp = .drop ∨
    (∃ mach fwtype spec serverIP resp,
      isBootDHCP pkt = .ok () ∧ validateDHCP pkt = .ok (mach, fwtype) ∧
      inp.bootSpec = .ok (some spec) ∧ interfaceIP addrs = .ok serverIP ∧
      offerDHCP httpPort pkt mach serverIP fwtype = .ok resp ∧ inp.sendOk = true ∧
      serveStep httpPort inp = .sent resp) := by
  cases hb : isBootDHCP pkt with
  | error e => exact Or.inl (by simp only [serveStep, hrecv, hb])
  | ok u =>
    cases u
    cases hv : validateDHCP pkt with
    | error e => exact Or.inl (by simp only [serveStep, hrecv, hb, hv])
    | ok mf =>
      obtain ⟨mach, fwtype⟩ := mf
      cases hs : inp.bootSpec with
      | error e => exact Or.inl (by simp only [serveStep, hrecv, hb, hv, hs])
      | ok os =>
        cases os with
        | none => exact Or.inl (by simp only [serveStep, hrecv, hb, hv, hs])
        | some spec =>
          cases hi : interfaceIP addrs with
          | error e => exact Or.inl (by simp only [serveStep, hrecv, hb, hv, hs, hi])
          | ok serverIP =>
            cases ho : offerDHCP httpPort pkt mach serverIP fwtype with
            | error e => exact Or.inl (by simp only [serveStep, hrecv, hb, hv, hs, hi, ho])
            | ok resp =>
              cases hsend : inp.sendOk with
              | false =>
                exact Or.inl (by simp only [serveStep, hrecv, hb, hv, hs, hi, ho, hsend,
                  if_false, Bool.false_eq_true])
              | true =>
                refine Or.inr ⟨mach, fwtype, spec, serverIP, resp, rfl, rfl, rfl, rfl, ho, rfl, ?_⟩
                simp only [serveStep, hrecv, hb, hv, hs, hi, ho, hsend, if_true]

/-- C1: only a receive-level failure (a socket receive error, or a
receive that violates the `dhcp4.Conn` contract by delivering no
interface information) terminates the negotiation loop; every
per-packet fault — non-PXE packet, validation error, boot-policy
provider error or nil result, interface-address resolution failure,
offer-construction failure, send failure — yields a drop with no offer
sent, and the loop continues with the next receive. -/
theorem serveDHCP_fault_containment (httpPort : Nat) (inp : ServeInput)
    (rest : List ServeInput) :
    (∀ e, inp.recv = .error e →
      serveStep httpPort inp = .fatal ("receiving DHCP packet: " ++ e) ∧
      serveDHCPLoop httpPort (inp :: rest) = ([], some ("receiving DHCP packet: " ++ e))) ∧
    (∀ e, serveStep httpPort inp = .fatal e →
      (∃ e2, inp.recv = .error e2) ∨ (∃ pkt, inp.recv = .ok (pkt, none))) ∧
    (∀ pkt addrs, inp.recv = .ok (pkt, some addrs) →
      (∀ e, serveStep httpPort inp ≠ .fatal e) ∧
      (∀ e, isBootDHCP pkt = .error e → serveStep httpPort inp = .drop) ∧
      (∀ e, validateDHCP pkt = .error e → serveStep httpPort inp = .drop) ∧
      (∀ e, inp.bootSpec = .error e → serveStep httpPort inp = .drop) ∧
      (inp.bootSpec = .ok none → serveStep httpPort inp = .drop) ∧
      (∀ e, interfaceIP addrs = .error e → serveStep httpPort inp = .drop) ∧
      (∀ mach fwtype serverIP e, validateDHCP pkt = .ok (mach, fwtype) →
        interfaceIP addrs = .ok serverIP →
        offerDHCP httpPort pkt mach serverIP fwtype = .error e →
        serveStep httpPort inp = .drop) ∧
      (inp.sendOk = false → serveStep httpPort inp = .drop) ∧
      (serveStep httpPort inp = .drop →
        serveDHCPLoop httpPort (inp :: rest) = serveDHCPLoop httpPort rest)) := by
  refine ⟨?_, ?_, ?_⟩
  · intro e he
    have hstep : serveStep httpPort inp = .fatal ("receiving DHCP packet: " ++ e) := by
      simp only [serveStep, he]
    exact ⟨hstep, by simp only [serveDHCPLoop, hstep]⟩
  · intro e hf
    cases hr : inp.recv with
    | error e2 => exact Or.inl ⟨e2, rfl⟩
    | ok pr =>
      obtain ⟨pkt, oi⟩ := pr
      cases oi with
      | none => exact Or.inr ⟨pkt, rfl⟩
      | some addrs =>
        rcases serveStep_drop_or_sent httpPort inp pkt addrs hr with hd |
          ⟨mach, fwtype, spec, serverIP, resp, hb', hv', hs', hi', ho', hsend', hsent⟩
        · rw [hd] at hf
          exact StepOutcome.noConfusion hf
        · rw [hsent] at hf
          exact StepOutcome.noConfusion hf
  · intro pkt addrs hrecv
    have hds := serveStep_drop_or_sent httpPort inp pkt addrs hrecv
    refine ⟨?_, ?_, ?_, ?_, ?_, ?_, ?_, ?_, ?_⟩
    · intro e hf
      rcases hds with hd | ⟨_, _, _, _, _, _, _, _, _, _, _, hsent⟩
      · rw [hd] at hf
        exact StepOutcome.noConfusion hf
      · rw [hsent] at hf
        exact StepOutcome.noConfusion hf
    · intro e he
      rcases hds with hd | ⟨_, _, _, _, _, hb', _, _, _, _, _, _⟩
      · exact hd
      · rw [he] at hb'
        exact Except.noConfusion hb'
    · intro e he
      rcases hds with hd | ⟨_, _, _, _, _, _, hv', _, _, _, _, _⟩
      · exact hd
      · rw [he] at hv'
        exact Except.noConfusion hv'
    · intro e he
      rcases hds with hd | ⟨_, _, _, _, _, _, _, hs', _, _, _, _⟩
      · exact hd
      · rw [he] at hs'
        exact Except.noConfusion hs'
    · intro he
      rcases hds with hd | ⟨_, _, _, _, _, _, _, hs', _, _, _, _⟩
      · exact hd
      · rw [he] at hs'
        exact Option.noConfusion (Except.ok.inj hs')
    · intro e he
      rcases hds with hd | ⟨_, _, _, _, _, _, _, _, hi', _, _, _⟩
      · exact hd
      · rw [he] at hi'
        exact Except.noConfusion hi'
    · intro mach fwtype serverIP e hv0 hi0 ho0
      rcases hds with hd | ⟨mach1, fwtype1, spec1, serverIP1, resp1, _, hv', _, hi', ho', _, _⟩
      · exact hd
      · rw [hv0] at hv'
        injection Except.ok.inj hv' with hma hfw
        subst hma
        subst hfw
        rw [hi0] at hi'
        have hsi := Except.ok.inj hi'
        subst hsi
        rw [ho0] at ho'
        exact Except.noConfusion ho'
    · intro he
      rcases hds with hd | ⟨_, _, _, _, _, _, _, _, _, _, hsend', _⟩
      · exact hd
      · rw [he] at hsend'
        exact Bool.noConfusion hsend'
    · intro hd
      simp only [serveDHCPLoop, hd]

/-- Witness for C1: a nil boot-policy result drops the request and the
loop continues. -/
theorem serveDHCP_fault_containment_witness :
    inpNilSpecW.recv = .ok (pktRelayW, some [some [10, 0, 0, 1]]) ∧
    inpNilSpecW.bootSpec = .ok none ∧
    serveStep 8080 inpNilSpecW = .drop ∧
    serveDHCPLoop 8080 [inpNilSpecW] = serveDHCPLoop 8080 [] := by
  have h := (serveDHCP_fault_containment 8080 inpNilSpecW []).2.2 pktRelayW
    [some [10, 0, 0, 1]] rfl
  have hdrop := h.2.2.2.2.1 rfl
  exact ⟨rfl, rfl, hdrop, h.2.2.2.2.2.2.2.2 hdrop⟩
